import Mathlib

/-!
Verification of the Report Normalization & Presentation Dispatch core of the
Multimodal AI Health Assistant frontend.

The embedding models the decoded JSON documents handled by the frontend as a
`JValue` tree (JavaScript numbers are modelled as rationals), and translates:

  * the schema-variant branching of the full `ReportCard` component
    (src/frontend_react/src/components/FeedbackItem.jsx, second document,
    lines 212-886) into `classifyDoc` and the template/action table `select`;
  * the report-history filter of `Reports.jsx` (lines 16-34) into
    `reportsKeep`;
  * the confidence coercion of `ConfidenceBar` (FeedbackItem.jsx lines
    184-210) into `confidencePercentage`, and its caller guard
    (`report.ai_confidence && <ConfidenceBar/>`) into `showsConfidenceBar`;
  * the severity fallback chain of the generic assessment branch
    (`report.risk_assessment?.severity || report.severity || "UNKNOWN"`)
    into `resolvedSeverity`;
  * the two feedback flows: the `FeedbackItem` component state (`submitted`,
    `helpful`, `reason`, `otherText`, `loading`) with its `handleFeedback`
    handler and its render-gated submit control, and the `ReportCard` inline
    feedback (`feedbackGiven` plus `handleFeedback(rating)`).
-/

/-- A decoded JSON value. JavaScript numbers are modelled as rationals;
`jNull` also stands for the `undefined` result of a missing property read,
which has the same truthiness. -/
inductive JValue where
  | jNull : JValue
  | jBool : Bool → JValue
  | jNum : ℚ → JValue
  | jStr : String → JValue
  | jArr : List JValue → JValue
  | jObj : List (String × JValue) → JValue

/-- First binding of a key in an object's field list. -/
def findField (k : String) : List (String × JValue) → Option JValue
  | [] => none
  | (k2, v) :: rest => if k2 = k then some v else findField k rest

/-- Property read `v[k]`: `none` when `v` is not an object or lacks the key
(JavaScript yields `undefined` in those cases, without throwing, which is
also what optional chaining `v?.k` yields on `null`/`undefined`). -/
def getField (v : JValue) (k : String) : Option JValue :=
  match v with
  | .jObj fs => findField k fs
  | _ => none

/-- JavaScript truthiness of a value (arrays and objects are always truthy,
the empty string and zero are falsy). -/
def truthy : JValue → Bool
  | .jNull => false
  | .jBool b => b
  | .jNum q => decide (q ≠ 0)
  | .jStr s => decide (s ≠ "")
  | .jArr _ => true
  | .jObj _ => true

/-- Truthiness of a property read, e.g. the `!!parsed.summary` and
`!report.summary` checks. -/
def fieldTruthy (v : JValue) (k : String) : Bool :=
  match getField v k with
  | some w => truthy w
  | none => false

/-- The strict comparison `v.k === "s"` used by the discriminator checks. -/
def fieldIsStr (v : JValue) (k s : String) : Bool :=
  match getField v k with
  | some (.jStr t) => decide (t = s)
  | _ => false

/-- Property read collapsed to a value, for `||` fallback chains:
a missing read behaves as the falsy `undefined`, here `jNull`. -/
def jfield (v : JValue) (k : String) : JValue :=
  match getField v k with
  | some w => w
  | none => .jNull

/-- JavaScript `a || b`. -/
def jsOr (a b : JValue) : JValue :=
  if truthy a then a else b

/-- Does `pat` occur as a prefix of `l`, character by character. -/
def charsPrefix : List Char → List Char → Bool
  | [], _ => true
  | _ :: _, [] => false
  | c :: cs, d :: ds => c = d && charsPrefix cs ds

/-- Does `pat` occur contiguously inside `l`. -/
def charsContains (pat : List Char) : List Char → Bool
  | [] => charsPrefix pat []
  | c :: rest => charsPrefix pat (c :: rest) || charsContains pat rest

/-- JavaScript `s.includes(pat)` (case sensitive). -/
def strContains (s pat : String) : Bool :=
  charsContains pat.toList s.toList

/-- JavaScript `s.toLowerCase()` over the character list (the confidence
categories are plain ASCII). -/
def lowerStr (s : String) : List Char :=
  s.toList.map Char.toLower

/-- JavaScript `s.toLowerCase().includes(pat)` for a lowercase pattern. -/
def strContainsLower (s pat : String) : Bool :=
  charsContains pat.toList (lowerStr s)

/-- The schema generations handled by the frontend. -/
inductive SchemaVariant where
  | HealthReport
  | MedicalAnalysis
  | LegacyMedicalReport
  | ClarificationQuestions
  | ImageAnalysis
  | GenericAssessment
  | PlainText
  | Malformed
deriving DecidableEq, Repr

/-- Classification of a decoded document, following the branch order of the
full `ReportCard` renderer (FeedbackItem.jsx lines 268, 352, 469, 556, 586,
660, 679): the five discriminator checks in source order, then the
`!report || !report.summary` malformed check, then the generic assessment. -/
def classifyDoc (v : JValue) : SchemaVariant :=
  if fieldIsStr v "type" "health_report" then .HealthReport
  else if fieldIsStr v "type" "medical_report_analysis" then .MedicalAnalysis
  else if fieldIsStr v "input_type" "medical_report" then .LegacyMedicalReport
  else if fieldIsStr v "type" "clarification_questions" then .ClarificationQuestions
  else if fieldIsStr v "input_type" "medical_image" then .ImageAnalysis
  else if !truthy v || !fieldTruthy v "summary" then .Malformed
  else .GenericAssessment

/-- A raw payload at the component boundary: either a string (the producing
service sometimes emits non-JSON text) or an already decoded document. -/
inductive RawPayload where
  | rawString : String → RawPayload
  | rawDoc : JValue → RawPayload

/-- Classification of a raw payload, parameterized by the platform JSON
parser (`JSON.parse`, a browser builtin outside the repository): a string
that fails to decode renders as raw text (`PlainText`), a string that
decodes continues with the decoded document (ReportCard.jsx lines 84-96). -/
def classify (parse : String → Option JValue) : RawPayload → SchemaVariant
  | .rawString s =>
    match parse s with
    | none => .PlainText
    | some v => classifyDoc v
  | .rawDoc v => classifyDoc v

/-- One template per return branch of the full `ReportCard`. -/
inductive TemplateId where
  | healthReportCard
  | medicalAnalysisCard
  | legacyReportCard
  | questionList
  | imageAnalysisCard
  | assessmentCard
  | rawText
deriving DecidableEq, Repr

/-- The user actions a rendered branch exposes. -/
structure ActionSet where
  download : Bool
  feedback : Bool
  playAudio : Bool
deriving DecidableEq, Repr

/-- The template and action set each variant's branch of the full
`ReportCard` renders: every structured branch has the PDF download button
and an audio player iff `audioUrl` is set; inline feedback buttons appear
only in the final generic assessment template (FeedbackItem.jsx lines
858-875); the clarification branch (lines 555-583) and the raw-text
returns have no download and no feedback. -/
def select (variant : SchemaVariant) (hasAudio : Bool) : TemplateId × ActionSet :=
  match variant with
  | .HealthReport => (.healthReportCard, ⟨true, false, hasAudio⟩)
  | .MedicalAnalysis => (.medicalAnalysisCard, ⟨true, false, hasAudio⟩)
  | .LegacyMedicalReport => (.legacyReportCard, ⟨true, false, hasAudio⟩)
  | .ClarificationQuestions => (.questionList, ⟨false, false, hasAudio⟩)
  | .ImageAnalysis => (.imageAnalysisCard, ⟨true, false, hasAudio⟩)
  | .GenericAssessment => (.assessmentCard, ⟨true, true, hasAudio⟩)
  | .PlainText => (.rawText, ⟨false, false, false⟩)
  | .Malformed => (.rawText, ⟨false, false, false⟩)

/-- Whether a document carries one of the five explicit discriminators. -/
def hasDiscriminator (v : JValue) : Bool :=
  fieldIsStr v "type" "health_report" ||
  fieldIsStr v "type" "medical_report_analysis" ||
  fieldIsStr v "input_type" "medical_report" ||
  fieldIsStr v "type" "clarification_questions" ||
  fieldIsStr v "input_type" "medical_image"

/-- The five schema checks of the `Reports.jsx` history filter (lines
21-25), in source order. `isHealthReportB` is
`parsed.type === 'health_report' || !!parsed.health_information`. -/
def isHealthReportB (v : JValue) : Bool :=
  fieldIsStr v "type" "health_report" || fieldTruthy v "health_information"

/-- `parsed.type === 'medical_report_analysis' || !!parsed.test_analysis`. -/
def isMedicalAnalysisB (v : JValue) : Bool :=
  fieldIsStr v "type" "medical_report_analysis" || fieldTruthy v "test_analysis"

/-- `parsed.input_type === 'medical_report' || !!parsed.interpretation`. -/
def isLegacyMedicalB (v : JValue) : Bool :=
  fieldIsStr v "input_type" "medical_report" || fieldTruthy v "interpretation"

/-- `parsed.input_type === 'medical_image' || !!parsed.observations`. -/
def isImageAnalysisB (v : JValue) : Bool :=
  fieldIsStr v "input_type" "medical_image" || fieldTruthy v "observations"

/-- `!!parsed.summary && (!!parsed.severity || !!parsed.risk_assessment)`. -/
def isGeneralReportB (v : JValue) : Bool :=
  fieldTruthy v "summary" && (fieldTruthy v "severity" || fieldTruthy v "risk_assessment")

/-- Whether `Reports.jsx` keeps a decoded history entry (line 27): the five
schema checks are combined by plain disjunction. -/
def reportsKeep (v : JValue) : Bool :=
  isHealthReportB v || isMedicalAnalysisB v || isLegacyMedicalB v ||
  isImageAnalysisB v || isGeneralReportB v

/-- `Math.round` on a rational: floor of the value plus one half. -/
def jsRound (q : ℚ) : ℤ :=
  ⌊q + 1 / 2⌋

/-- The percentage computed by the full `ConfidenceBar` (FeedbackItem.jsx
lines 186-194) from the raw `score` prop: numbers are rounded from the 0-1
scale, strings are matched case-insensitively by substring, anything else
(including an absent value) leaves the initial 0. -/
def confidencePercentage (score : Option JValue) : ℤ :=
  match score with
  | some (.jNum q) => jsRound (q * 100)
  | some (.jStr s) =>
    if strContainsLower s "high" then 90
    else if strContainsLower s "medium" then 60
    else if strContainsLower s "low" then 30
    else 0
  | _ => 0

/-- Whether the health-report branch renders a confidence bar at all:
`report.ai_confidence && <ConfidenceBar score={report.ai_confidence} />`
(FeedbackItem.jsx lines 300 and 394). -/
def showsConfidenceBar (v : JValue) : Bool :=
  fieldTruthy v "ai_confidence"

/-- The generic assessment branch's severity fallback chain
(FeedbackItem.jsx line 669):
`report.risk_assessment?.severity || report.severity || "UNKNOWN"`. -/
def resolvedSeverity (v : JValue) : JValue :=
  jsOr (jfield (jfield v "risk_assessment") "severity")
    (jsOr (jfield v "severity") (.jStr "UNKNOWN"))

/-- The conditions list the generic assessment branch reads
(`report.possible_causes`, FeedbackItem.jsx line 787); an absent or
non-array field contributes no items. -/
def conditionsOf (v : JValue) : List JValue :=
  match getField v "possible_causes" with
  | some (.jArr l) => l
  | _ => []

/-- The escalation banner of the `medical_report_analysis` branch
(FeedbackItem.jsx lines 385-392):
`report.summary?.includes("seek medical attention")`. A non-string summary
is not exercised by that branch's payloads and yields no banner here. -/
def medicalEscalation (v : JValue) : Bool :=
  match getField v "summary" with
  | some (.jStr s) => strContains s "seek medical attention"
  | _ => false

/-- State of the `ReportCard` inline feedback: `feedbackGiven` starts as
`null` and records the first rating; `calls` counts outbound
`feedbackService.submitFeedback` calls. -/
structure RCState where
  feedbackGiven : Option String
  calls : Nat
deriving DecidableEq, Repr

/-- Initial `ReportCard` feedback state (`useState(null)`). -/
def rcInit : RCState :=
  ⟨none, 0⟩

/-- Truthiness of the stored `feedbackGiven` value. -/
def rcTruthy : Option String → Bool
  | none => false
  | some s => decide (s ≠ "")

/-- `handleFeedback(rating)` of `ReportCard` (ReportCard.jsx lines 48-57,
FeedbackItem.jsx lines 217-226): an early return when `feedbackGiven` is
truthy; otherwise the rating is recorded before the call, then the context
extraction may throw (`ctxOk = false`, no outbound call) and the awaited
call's success or failure (`ok`) is swallowed by the catch, leaving the
recorded rating in place either way. -/
def rcHandleFeedback (rating : String) (ctxOk _ok : Bool) (st : RCState) : RCState :=
  if rcTruthy st.feedbackGiven then st
  else { feedbackGiven := some rating, calls := st.calls + (if ctxOk then 1 else 0) }

/-- State of the `FeedbackItem` component (FeedbackItem.jsx lines 6-10):
`submitted`, `helpful` (`true`, `false` or `null`), the selected `reason`
string, the free text, the `loading` flag, plus an outbound call counter. -/
structure FBState where
  submitted : Bool
  helpful : Option Bool
  reason : String
  otherText : String
  loading : Bool
  calls : Nat
deriving DecidableEq, Repr

/-- Initial `FeedbackItem` state. -/
def fbInit : FBState :=
  ⟨false, none, "", "", false, 0⟩

/-- JavaScript `!helpful` on the tri-state value: truthy only for `true`. -/
def jsFalsyHelpful : Option Bool → Bool
  | some true => false
  | _ => true

/-- `handleFeedback` of `FeedbackItem` (lines 20-36): the guard
`if (!helpful && !reason) return;` refuses the submission, otherwise one
outbound call is issued; `setSubmitted(true)` runs only when the call
resolves successfully (`ok`), the catch leaves all form state untouched,
and the finally clause resets `loading`. -/
def fbHandleFeedback (ok : Bool) (st : FBState) : FBState :=
  if jsFalsyHelpful st.helpful && decide (st.reason = "") then st
  else
    { st with
      calls := st.calls + 1
      submitted := if ok then true else st.submitted
      loading := false }

/-- Whether a Submit control is rendered at all: once `submitted` the
component shows only the thank-you row (line 38); in the rating row
(`helpful === null` branch) the Submit button is guarded by
`helpful === true`, which is false there; when `helpful` is `true` the
outer ternary's `!helpful && ...` arm renders nothing; only the
`helpful === false` reason form contains a reachable Submit button. -/
def fbSubmitVisible (st : FBState) : Bool :=
  if st.submitted then false
  else
    match st.helpful with
    | none => false
    | some true => false
    | some false => true

/-- Whether the rendered Submit button is clickable: the reason-form button
carries `disabled={loading || !reason}` (line 137). -/
def fbSubmitEnabled (st : FBState) : Bool :=
  fbSubmitVisible st && !st.loading && decide (st.reason ≠ "")

/-- A user click on Submit: only a rendered, enabled button runs the
handler. -/
def fbClickSubmit (ok : Bool) (st : FBState) : FBState :=
  if fbSubmitEnabled st then fbHandleFeedback ok st else st

/-- A click on the thumbs-up / thumbs-down buttons, rendered only in the
`helpful === null` rating row of a not-yet-submitted view (lines 49-78). -/
def fbRate (b : Bool) (st : FBState) : FBState :=
  if st.submitted then st
  else
    match st.helpful with
    | none => { st with helpful := some b }
    | some _ => st

/-- Selecting a reason radio button, rendered only in the
`helpful === false` form (lines 93-120); `onChange` only sets `reason`. -/
def fbChooseReason (r : String) (st : FBState) : FBState :=
  if st.submitted then st
  else
    match st.helpful with
    | some false => { st with reason := r }
    | _ => st

/-- C1: classification is total over raw payloads and never throws; a string
input that fails structured decoding is classified `PlainText` and rendered
with the raw-text template; a decoded document matching none of the known
discriminators and lacking a (truthy) summary field is classified
`Malformed` and rendered with the raw-text template. -/
theorem classify_total_never_throws :
    (∀ (parse : String → Option JValue) (p : RawPayload), ∃ t, classify parse p = t)
    ∧ (∀ (parse : String → Option JValue) (s : String), parse s = none →
        classify parse (.rawString s) = .PlainText
          ∧ (select .PlainText false).1 = .rawText)
    ∧ (∀ v : JValue, hasDiscriminator v = false → fieldTruthy v "summary" = false →
        classifyDoc v = .Malformed ∧ (select .Malformed false).1 = .rawText) := by
  refine ⟨fun parse p => ⟨classify parse p, rfl⟩, ?_, ?_⟩
  · intro parse s h
    refine ⟨?_, rfl⟩
    simp [classify, h]
  · intro v h1 h2
    refine ⟨?_, rfl⟩
    unfold hasDiscriminator at h1
    simp only [Bool.or_eq_false_iff] at h1
    obtain ⟨⟨⟨⟨a1, a2⟩, a3⟩, a4⟩, a5⟩ := h1
    unfold classifyDoc
    simp [a1, a2, a3, a4, a5, h2]

/-- Witness for C1 at concrete inputs: the raw string "not json" under a
failing parse, and a decoded document with only an unknown field. -/
theorem classify_total_never_throws_witness :
    classify (fun _ => none) (.rawString "not json") = .PlainText
    ∧ classifyDoc (.jObj [("analysis", .jStr "x")]) = .Malformed :=
  ⟨(classify_total_never_throws.2.1 (fun _ => none) "not json" rfl).1,
   (classify_total_never_throws.2.2 (.jObj [("analysis", .jStr "x")]) rfl rfl).1⟩

/-- C2 counterexample: a discriminator-free payload carrying a tabular
test-analysis field (and also a summary plus severity) classifies
`GenericAssessment`, not the `MedicalAnalysis` the claimed heuristic
precedence dictates. -/
theorem structural_precedence_counterexample :
    hasDiscriminator (.jObj [("test_analysis", .jArr []),
      ("summary", .jStr "s"), ("severity", .jStr "HIGH")]) = false
    ∧ classifyDoc (.jObj [("test_analysis", .jArr []),
        ("summary", .jStr "s"), ("severity", .jStr "HIGH")]) = .GenericAssessment
    ∧ SchemaVariant.GenericAssessment ≠ SchemaVariant.MedicalAnalysis := by
  exact ⟨rfl, rfl, by decide⟩

/-- C2 amended: absent an explicit discriminator the renderer applies no
tabular/observations/interpretation heuristics — it classifies
`GenericAssessment` when the payload is truthy with a truthy summary field
and `Malformed` otherwise; the structural heuristics appear only in the
report-history filter, where they form an order-insensitive disjunction
deciding whether an entry is kept, not a precedence selecting a variant. -/
theorem structural_heuristics_amended :
    (∀ v : JValue, hasDiscriminator v = false →
      classifyDoc v =
        if truthy v && fieldTruthy v "summary" then .GenericAssessment else .Malformed)
    ∧ (∀ v : JValue, reportsKeep v =
        (isGeneralReportB v || isImageAnalysisB v || isLegacyMedicalB v ||
         isMedicalAnalysisB v || isHealthReportB v)) := by
  constructor
  · intro v h1
    unfold hasDiscriminator at h1
    simp only [Bool.or_eq_false_iff] at h1
    obtain ⟨⟨⟨⟨a1, a2⟩, a3⟩, a4⟩, a5⟩ := h1
    unfold classifyDoc
    simp only [a1, a2, a3, a4, a5, if_false, Bool.false_eq_true]
    cases ht : truthy v <;> cases hs : fieldTruthy v "summary" <;> simp [ht, hs]
  · intro v
    unfold reportsKeep
    cases isHealthReportB v <;> cases isMedicalAnalysisB v <;>
      cases isLegacyMedicalB v <;> cases isImageAnalysisB v <;>
      cases isGeneralReportB v <;> rfl

/-- Witness for C2's amended claim at a concrete discriminator-free
payload. -/
theorem structural_heuristics_amended_witness :
    classifyDoc (.jObj [("summary", .jStr "flu")]) =
      (if truthy (.jObj [("summary", .jStr "flu")])
          && fieldTruthy (.jObj [("summary", .jStr "flu")]) "summary"
        then SchemaVariant.GenericAssessment else SchemaVariant.Malformed) :=
  structural_heuristics_amended.1 (.jObj [("summary", .jStr "flu")]) rfl

/-- C3 counterexample: the `HealthReport` branch is neither `PlainText` nor
`Malformed` nor `ClarificationQuestions`, yet its rendered branch exposes no
Feedback action (inline feedback exists only in the generic assessment
template). -/
theorem dispatch_feedback_counterexample :
    (select .HealthReport true).2.feedback = false
    ∧ (select .HealthReport true).1 ≠ TemplateId.assessmentCard := by
  exact ⟨rfl, by decide⟩

/-- C3 amended: `ClarificationQuestions` renders the question-list template
with neither Download nor Feedback; `PlainText`/`Malformed` render raw text
with no actions; every other variant renders its own template with the
Download action, and the Feedback action exists exactly on the
`GenericAssessment` template. -/
theorem dispatch_table_amended :
    ∀ (vt : SchemaVariant) (a : Bool),
      ((select vt a).2.feedback = decide (vt = .GenericAssessment))
      ∧ ((select vt a).2.download =
          !(decide (vt = .ClarificationQuestions) || decide (vt = .PlainText)
            || decide (vt = .Malformed)))
      ∧ (decide ((select vt a).1 = TemplateId.rawText) =
          (decide (vt = .PlainText) || decide (vt = .Malformed)))
      ∧ (select .ClarificationQuestions a = (.questionList, ⟨false, false, a⟩))
      ∧ ((select .GenericAssessment a).2 = ⟨true, true, a⟩) := by
  intro vt a
  cases vt <;> exact ⟨rfl, rfl, rfl, rfl, rfl⟩

/-- The submit control of `FeedbackItem` is clickable exactly in a
not-yet-submitted, not-loading reason form with a reason selected. -/
theorem fbSubmitEnabled_iff (st : FBState) :
    fbSubmitEnabled st = true ↔
      st.submitted = false ∧ st.helpful = some false ∧ st.loading = false
        ∧ st.reason ≠ "" := by
  obtain ⟨sub, help, reason, other, load, calls⟩ := st
  cases sub <;> rcases help with _ | b <;> (try cases b) <;> cases load <;>
    simp [fbSubmitEnabled, fbSubmitVisible]

/-- Once `FeedbackItem` is submitted, a submit attempt changes nothing. -/
theorem fbClickSubmit_submitted (o : Bool) (st : FBState) (h : st.submitted = true) :
    fbClickSubmit o st = st := by
  simp [fbClickSubmit, fbSubmitEnabled, fbSubmitVisible, h]

/-- Effect of clicking an enabled Submit button in `FeedbackItem`: one
outbound call, `submitted` set exactly when the call succeeds, all form
state preserved. -/
theorem fbClickSubmit_enabled (o : Bool) (st : FBState) (h : fbSubmitEnabled st = true) :
    fbClickSubmit o st =
      { st with calls := st.calls + 1, submitted := o, loading := false } := by
  obtain ⟨h1, h2, h3, h4⟩ := (fbSubmitEnabled_iff st).mp h
  unfold fbClickSubmit fbHandleFeedback
  rw [h, if_pos rfl, h2]
  simp only [jsFalsyHelpful, decide_eq_false h4, Bool.and_false, Bool.false_eq_true,
    if_false]
  cases o <;> simp [h1]

/-- C4: each feedback session issues at most one outbound submission: once
`FeedbackItem` is submitted every further submit attempt is a no-op; from an
enabled state a successful submit followed by any second attempt yields
exactly one extra outbound call; `ReportCard` ignores repeats once a rating
is recorded, so two sequential attempts from a fresh card make one call. -/
theorem submit_at_most_once :
    (∀ (st : FBState) (o : Bool), st.submitted = true → fbClickSubmit o st = st)
    ∧ (∀ (st : FBState) (o2 : Bool), fbSubmitEnabled st = true →
        (fbClickSubmit true st).calls = st.calls + 1
        ∧ fbClickSubmit o2 (fbClickSubmit true st) = fbClickSubmit true st)
    ∧ (∀ (st : RCState) (r : String) (c o : Bool), rcTruthy st.feedbackGiven = true →
        rcHandleFeedback r c o st = st)
    ∧ (∀ (r1 r2 : String) (c2 o1 o2 : Bool), r1 ≠ "" →
        (rcHandleFeedback r1 true o1 rcInit).calls = 1
        ∧ rcHandleFeedback r2 c2 o2 (rcHandleFeedback r1 true o1 rcInit)
            = rcHandleFeedback r1 true o1 rcInit) := by
  refine ⟨?_, ?_, ?_, ?_⟩
  · intro st o h
    exact fbClickSubmit_submitted o st h
  · intro st o2 h
    have e1 := fbClickSubmit_enabled true st h
    refine ⟨by rw [e1], ?_⟩
    have hs : (fbClickSubmit true st).submitted = true := by rw [e1]
    exact fbClickSubmit_submitted o2 _ hs
  · intro st r c o h
    simp [rcHandleFeedback, h]
  · intro r1 r2 c2 o1 o2 h
    constructor <;> simp [rcHandleFeedback, rcInit, rcTruthy, h]

/-- Witness for C4: a `FeedbackItem` state ready to submit, and a fresh
`ReportCard` rated positive twice. -/
theorem submit_at_most_once_witness :
    (fbClickSubmit true ⟨false, some false, "Other", "", false, 0⟩).calls = 0 + 1
    ∧ rcHandleFeedback "negative" true true (rcHandleFeedback "positive" true true rcInit)
        = rcHandleFeedback "positive" true true rcInit :=
  ⟨(submit_at_most_once.2.1 ⟨false, some false, "Other", "", false, 0⟩ true (by decide)).1,
   (submit_at_most_once.2.2.2 "positive" "negative" true true true (by decide)).2⟩

/-- C5 counterexample: in the `ReportCard` session a transport failure does
not leave the submitted flag false — the rating is recorded before the call
resolves, so after the failed call the session counts as given and a retry
attempt is a no-op that issues no further call. -/
theorem failed_submission_retry_counterexample :
    rcTruthy (rcHandleFeedback "positive" true false rcInit).feedbackGiven = true
    ∧ (rcHandleFeedback "positive" true false rcInit).calls = 1
    ∧ rcHandleFeedback "positive" true true (rcHandleFeedback "positive" true false rcInit)
        = rcHandleFeedback "positive" true false rcInit := by
  exact ⟨rfl, rfl, rfl⟩

/-- C5 amended: in the `FeedbackItem` session a failed submission leaves
`submitted` false with rating, reason and free text unchanged and the submit
control still enabled, so a retry can succeed; the `ReportCard` inline
feedback instead records the rating before the call resolves, so after a
transport failure the session counts as given and no retry is possible. -/
theorem failed_submission_retry_amended :
    (∀ st : FBState, fbSubmitEnabled st = true →
      (fbClickSubmit false st).submitted = false
      ∧ (fbClickSubmit false st).helpful = st.helpful
      ∧ (fbClickSubmit false st).reason = st.reason
      ∧ (fbClickSubmit false st).otherText = st.otherText
      ∧ fbSubmitEnabled (fbClickSubmit false st) = true
      ∧ (fbClickSubmit true (fbClickSubmit false st)).submitted = true)
    ∧ (∀ (r : String) (o : Bool), r ≠ "" →
      rcTruthy (rcHandleFeedback r true o rcInit).feedbackGiven = true
      ∧ ∀ (r2 : String) (c2 o2 : Bool),
          rcHandleFeedback r2 c2 o2 (rcHandleFeedback r true o rcInit)
            = rcHandleFeedback r true o rcInit) := by
  constructor
  · intro st h
    obtain ⟨h1, h2, h3, h4⟩ := (fbSubmitEnabled_iff st).mp h
    have e1 := fbClickSubmit_enabled false st h
    have hen : fbSubmitEnabled (fbClickSubmit false st) = true := by
      rw [e1]
      exact (fbSubmitEnabled_iff _).mpr ⟨rfl, h2, rfl, h4⟩
    refine ⟨by rw [e1], by rw [e1], by rw [e1], by rw [e1], hen, ?_⟩
    have e2 := fbClickSubmit_enabled true _ hen
    rw [e2]
  · intro r o h
    refine ⟨?_, ?_⟩
    · simp [rcHandleFeedback, rcInit, rcTruthy, h]
    · intro r2 c2 o2
      simp [rcHandleFeedback, rcInit, rcTruthy, h]

/-- Witness for C5's amended claim: a concrete enabled `FeedbackItem` state
whose failed submission stays retryable, and a fresh `ReportCard` whose
failed submission does not. -/
theorem failed_submission_retry_amended_witness :
    (fbClickSubmit false ⟨false, some false, "Not accurate", "", false, 0⟩).submitted = false
    ∧ rcTruthy (rcHandleFeedback "negative" true false rcInit).feedbackGiven = true :=
  ⟨(failed_submission_retry_amended.1 ⟨false, some false, "Not accurate", "", false, 0⟩
      (by decide)).1,
   (failed_submission_retry_amended.2 "negative" false (by decide)).1⟩

/-- C6: the claim is right about the intended flow and the code has a
rendering slip. In `FeedbackItem`, after `rate(Helpful)` the handler would
indeed submit with no reason set (one outbound call, `submitted` true), a
`NotHelpful` submit with no reason is refused with no call, and the
`NotHelpful → Other → submit` path succeeds with empty free text; but the
Helpful-path Submit button is nested inside the `helpful === null` branch,
so once `helpful` is `true` no Submit control is rendered and the Helpful
submission is unreachable through the view, contradicting the component's
own comment that feedback is submitted via an explicit Submit button. -/
theorem helpful_submit_unreachable_bug :
    fbRate true fbInit = ⟨false, some true, "", "", false, 0⟩
    ∧ fbSubmitVisible (fbRate true fbInit) = false
    ∧ (fbHandleFeedback true (fbRate true fbInit)).submitted = true
    ∧ (fbHandleFeedback true (fbRate true fbInit)).calls = 1
    ∧ fbHandleFeedback true (fbRate false fbInit) = fbRate false fbInit
    ∧ fbSubmitEnabled (fbRate false fbInit) = false
    ∧ (fbChooseReason "Other" (fbRate false fbInit)).otherText = ""
    ∧ (fbClickSubmit true (fbChooseReason "Other" (fbRate false fbInit))).submitted = true
    ∧ (fbClickSubmit true (fbChooseReason "Other" (fbRate false fbInit))).calls = 1 := by
  decide

/-- C7 counterexample: a truthy confidence string matching none of the
categories coerces to 0 — the case the claim calls "not provided" — yet the
caller guard still renders the confidence bar for it (at 0%). -/
theorem confidence_nomatch_bar_counterexample :
    confidencePercentage (some (.jStr "uncertain")) = 0
    ∧ showsConfidenceBar (.jObj [("ai_confidence", .jStr "uncertain")]) = true := by
  exact ⟨rfl, rfl⟩

/-- C7 amended: the coerced percentage is round(value*100) for numbers, 90
for strings containing "high" case-insensitively, else 60 for "medium",
else 30 for "low", and 0 for other strings or an absent input; but the bar
is omitted exactly when the raw confidence field is falsy, so an absent
value shows no bar while a truthy no-match string still renders a 0% bar. -/
theorem confidence_coercion_amended :
    confidencePercentage (some (.jNum (19 / 20))) = 95
    ∧ (∀ q : ℚ, confidencePercentage (some (.jNum q)) = jsRound (q * 100))
    ∧ (∀ s : String, strContainsLower s "high" = true →
        confidencePercentage (some (.jStr s)) = 90)
    ∧ (∀ s : String, strContainsLower s "high" = false →
        strContainsLower s "medium" = true →
        confidencePercentage (some (.jStr s)) = 60)
    ∧ (∀ s : String, strContainsLower s "high" = false →
        strContainsLower s "medium" = false →
        strContainsLower s "low" = true →
        confidencePercentage (some (.jStr s)) = 30)
    ∧ (∀ s : String, strContainsLower s "high" = false →
        strContainsLower s "medium" = false →
        strContainsLower s "low" = false →
        confidencePercentage (some (.jStr s)) = 0)
    ∧ confidencePercentage none = 0
    ∧ showsConfidenceBar (.jObj []) = false
    ∧ showsConfidenceBar (.jObj [("ai_confidence", .jStr "uncertain")]) = true := by
  have h95 : confidencePercentage (some (.jNum (19 / 20))) = 95 := by
    show jsRound ((19 / 20 : ℚ) * 100) = 95
    unfold jsRound
    rw [Int.floor_eq_iff]
    norm_num
  refine ⟨h95, fun q => rfl, ?_, ?_, ?_, ?_, rfl, rfl, rfl⟩
  · intro s h1
    simp [confidencePercentage, h1]
  · intro s h1 h2
    simp [confidencePercentage, h1, h2]
  · intro s h1 h2 h3
    simp [confidencePercentage, h1, h2, h3]
  · intro s h1 h2 h3
    simp [confidencePercentage, h1, h2, h3]

/-- Witness for C7's amended claim at the spec's own examples. -/
theorem confidence_coercion_amended_witness :
    confidencePercentage (some (.jStr "High confidence")) = 90
    ∧ confidencePercentage (some (.jStr "low")) = 30
    ∧ confidencePercentage (some (.jNum (19 / 20))) = jsRound ((19 / 20 : ℚ) * 100) :=
  ⟨confidence_coercion_amended.2.2.1 "High confidence" rfl,
   confidence_coercion_amended.2.2.2.2.1 "low" rfl rfl rfl,
   confidence_coercion_amended.2.1 (19 / 20)⟩

/-- C8 counterexample: a numeric confidence outside [0,1] is not clamped —
the derived percentage for 5 is 500, outside [0,100]. -/
theorem confidence_unclamped_counterexample :
    confidencePercentage (some (.jNum 5)) = 500 := by
  show jsRound ((5 : ℚ) * 100) = 500
  unfold jsRound
  rw [Int.floor_eq_iff]
  norm_num

/-- C8 amended: no clamping is performed anywhere — categorical strings and
absent inputs always yield a percentage in [0,100], and numeric inputs do
so only when the value already lies in [0,1]; a numeric confidence outside
[0,1] yields round(value*100) unclamped, e.g. 5 gives 500. -/
theorem confidence_range_amended :
    (∀ q : ℚ, 0 ≤ q → q ≤ 1 →
      0 ≤ confidencePercentage (some (.jNum q))
        ∧ confidencePercentage (some (.jNum q)) ≤ 100)
    ∧ (∀ s : String, 0 ≤ confidencePercentage (some (.jStr s))
        ∧ confidencePercentage (some (.jStr s)) ≤ 100)
    ∧ confidencePercentage none = 0
    ∧ confidencePercentage (some (.jNum 5)) = 500 := by
  have h500 : confidencePercentage (some (.jNum 5)) = 500 := by
    show jsRound ((5 : ℚ) * 100) = 500
    unfold jsRound
    rw [Int.floor_eq_iff]
    norm_num
  refine ⟨?_, ?_, rfl, h500⟩
  · intro q h0 h1
    show 0 ≤ jsRound (q * 100) ∧ jsRound (q * 100) ≤ 100
    unfold jsRound
    constructor
    · have : (0 : ℚ) ≤ q * 100 + 1 / 2 := by linarith
      exact_mod_cast Int.le_floor.mpr (by exact_mod_cast this)
    · have hlt : ⌊q * 100 + 1 / 2⌋ < 101 := Int.floor_lt.mpr (by push_cast; linarith)
      omega
  · intro s
    show (0 ≤ confidencePercentage (some (.jStr s))
      ∧ confidencePercentage (some (.jStr s)) ≤ 100)
    simp only [confidencePercentage]
    split_ifs <;> norm_num

/-- Witness for C8's amended claim at concrete in-range inputs. -/
theorem confidence_range_amended_witness :
    0 ≤ confidencePercentage (some (.jNum (19 / 20)))
    ∧ confidencePercentage (some (.jNum (19 / 20))) ≤ 100
    ∧ 0 ≤ confidencePercentage (some (.jStr "medium")) :=
  ⟨(confidence_range_amended.1 (19 / 20) (by norm_num) (by norm_num)).1,
   (confidence_range_amended.1 (19 / 20) (by norm_num) (by norm_num)).2,
   (confidence_range_amended.2.1 "medium").1⟩

/-- C9: the generic assessment severity follows the strict priority chain —
the nested risk-assessment severity when truthy, else the top-level
severity when truthy, else "UNKNOWN"; and the payload
{summary: "flu-like", severity: "HIGH"} classifies `GenericAssessment` with
severity "HIGH" and an empty conditions list. -/
theorem severity_priority_order :
    (∀ v : JValue, truthy (jfield (jfield v "risk_assessment") "severity") = true →
      resolvedSeverity v = jfield (jfield v "risk_assessment") "severity")
    ∧ (∀ v : JValue, truthy (jfield (jfield v "risk_assessment") "severity") = false →
        truthy (jfield v "severity") = true →
        resolvedSeverity v = jfield v "severity")
    ∧ (∀ v : JValue, truthy (jfield (jfield v "risk_assessment") "severity") = false →
        truthy (jfield v "severity") = false →
        resolvedSeverity v = .jStr "UNKNOWN")
    ∧ (classifyDoc (.jObj [("summary", .jStr "flu-like"), ("severity", .jStr "HIGH")])
          = .GenericAssessment
      ∧ resolvedSeverity (.jObj [("summary", .jStr "flu-like"), ("severity", .jStr "HIGH")])
          = .jStr "HIGH"
      ∧ conditionsOf (.jObj [("summary", .jStr "flu-like"), ("severity", .jStr "HIGH")])
          = []) := by
  refine ⟨?_, ?_, ?_, rfl, rfl, rfl⟩
  · intro v h
    simp [resolvedSeverity, jsOr, h]
  · intro v h1 h2
    simp [resolvedSeverity, jsOr, h1, h2]
  · intro v h1 h2
    simp [resolvedSeverity, jsOr, h1, h2]

/-- Witness for C9 at concrete payloads exercising each priority level. -/
theorem severity_priority_order_witness :
    resolvedSeverity (.jObj [("risk_assessment", .jObj [("severity", .jStr "LOW")]),
        ("severity", .jStr "HIGH")])
      = jfield (jfield (.jObj [("risk_assessment", .jObj [("severity", .jStr "LOW")]),
          ("severity", .jStr "HIGH")]) "risk_assessment") "severity"
    ∧ resolvedSeverity (.jObj [("severity", .jStr "HIGH")])
        = jfield (.jObj [("severity", .jStr "HIGH")]) "severity"
    ∧ resolvedSeverity (.jObj [("summary", .jStr "s")]) = .jStr "UNKNOWN" :=
  ⟨severity_priority_order.1 _ rfl,
   severity_priority_order.2.1 _ rfl rfl,
   severity_priority_order.2.2.1 _ rfl rfl⟩

/-- C10 counterexample: two `medical_report_analysis` payloads identical
except for whether the summary contains "seek medical attention" classify
identically but differ in the escalation banner the template renders. -/
theorem keyword_escalation_counterexample :
    classifyDoc (.jObj [("type", .jStr "medical_report_analysis"),
        ("summary", .jStr "All values are within the normal range.")]) = .MedicalAnalysis
    ∧ classifyDoc (.jObj [("type", .jStr "medical_report_analysis"),
        ("summary", .jStr "Some values are outside range, please seek medical attention.")])
        = .MedicalAnalysis
    ∧ medicalEscalation (.jObj [("type", .jStr "medical_report_analysis"),
        ("summary", .jStr "All values are within the normal range.")]) = false
    ∧ medicalEscalation (.jObj [("type", .jStr "medical_report_analysis"),
        ("summary", .jStr "Some values are outside range, please seek medical attention.")])
        = true := by
  exact ⟨rfl, rfl, by decide, by decide⟩

/-- C10 amended: the severity badge of the generic assessment template
depends only on the risk-assessment and severity fields — payloads agreeing
on those agree on the resolved severity whatever their summary says — but
the `medical_report_analysis` template additionally renders a
"seek medical attention" escalation banner driven purely by that keyword
phrase occurring in the summary text. -/
theorem severity_no_keyword_amended :
    (∀ v w : JValue, getField v "risk_assessment" = getField w "risk_assessment" →
      getField v "severity" = getField w "severity" →
      resolvedSeverity v = resolvedSeverity w)
    ∧ medicalEscalation (.jObj [("type", .jStr "medical_report_analysis"),
        ("summary", .jStr "please seek medical attention")]) = true
    ∧ medicalEscalation (.jObj [("type", .jStr "medical_report_analysis"),
        ("summary", .jStr "all good")]) = false := by
  refine ⟨?_, by decide, by decide⟩
  intro v w h1 h2
  simp only [resolvedSeverity, jfield]
  rw [h1, h2]

/-- Witness for C10's amended claim: two payloads sharing severity fields
but with different summaries resolve to the same severity. -/
theorem severity_no_keyword_amended_witness :
    resolvedSeverity (.jObj [("severity", .jStr "HIGH"), ("summary", .jStr "calm text")])
      = resolvedSeverity (.jObj [("severity", .jStr "HIGH"),
          ("summary", .jStr "please seek medical attention")]) :=
  severity_no_keyword_amended.1 _ _ rfl rfl
